import Mathlib

/-!
Verification of the STR PDF extractor (src/extract_str.py) and the template
builder (src/template_builder.py) against their natural-language
specification.  The Python code is shallowly embedded: Python strings become
`List Char`, page coordinates (floats) become exact rationals, dictionaries
become association lists, and every fallible path is made explicit.
-/

namespace STR

/-- Python strings are modelled as lists of characters. -/
abbrev Str := List Char

/-- Uppercasing, as in the Python str.upper method (ASCII letters). -/
def upperStr (s : Str) : Str := s.map Char.toUpper

/-- Lowercasing, as in the Python str.lower method (ASCII letters). -/
def lowerStr (s : Str) : Str := s.map Char.toLower

/-- The whitespace characters recognised by the Python str.strip and
str.split methods (space, tab, newline, carriage return, vertical tab,
form feed). -/
def isPySpace (c : Char) : Bool :=
  c = ' ' || c = '\t' || c = '\n' || c = '\r' || c = Char.ofNat 11 || c = Char.ofNat 12

/-- Substring test: Python infix containment, pattern p occurs somewhere in s. -/
def occursIn (p : Str) : Str → Bool
  | [] => p.isEmpty
  | c :: rest => List.isPrefixOf p (c :: rest) || occursIn p rest

/-- Drop leading characters satisfying p. -/
def lstripBy (p : Char → Bool) (s : Str) : Str := s.dropWhile p

/-- Drop trailing characters satisfying p. -/
def rstripBy (p : Char → Bool) (s : Str) : Str := (s.reverse.dropWhile p).reverse

/-- Python str.strip with no argument: remove whitespace at both ends. -/
def pyStrip (s : Str) : Str := lstripBy isPySpace (rstripBy isPySpace s)

/-- Python str.rstrip with the punctuation set used by the extractor. -/
def isTrailPunct (c : Char) : Bool := c = ':' || c = ';' || c = ',' || c = '.'

/-- Removal of trailing punctuation, as in the rstrip call of the extractor. -/
def pyRstripPunct (s : Str) : Str := rstripBy isTrailPunct s

/-- Worker for whitespace splitting: acc holds the current token reversed. -/
def splitWsAux : Str → Str → List Str
  | [], acc => if acc.isEmpty then [] else [acc.reverse]
  | c :: cs, acc =>
    if isPySpace c then
      (if acc.isEmpty then splitWsAux cs [] else acc.reverse :: splitWsAux cs [])
    else splitWsAux cs (c :: acc)

/-- Python str.split with no argument: split on whitespace runs, dropping
empty pieces. -/
def pySplitWs (s : Str) : List Str := splitWsAux s []

/-- Python sep.join for a single-character separator. -/
def joinSep (sep : Char) : List Str → Str
  | [] => []
  | [x] => x
  | x :: y :: rest => x ++ sep :: joinSep sep (y :: rest)

/-- The whitespace-collapsing step of the extractor: split on whitespace and
rejoin with single spaces. -/
def collapseWs (s : Str) : Str := joinSep ' ' (pySplitWs s)

/-- A word as produced by the PDF library: its text and its geometry
(left x0, right x1, top and bottom y, y growing downward). -/
structure Word where
  text : Str
  x0 : ℚ
  x1 : ℚ
  top : ℚ
  bottom : ℚ
deriving DecidableEq

/-- A template bounding box. -/
structure Box where
  x : ℚ
  y : ℚ
  width : ℚ
  height : ℚ
deriving DecidableEq

/-- Strict lexicographic order on the sort key (top, x0) used by the
extractor when ordering selected words. -/
def wordKeyLt (a b : Word) : Bool :=
  decide (a.top < b.top) || (decide (a.top = b.top) && decide (a.x0 < b.x0))

/-- Stable insertion of a word into an already sorted list: w goes in front
of the first element that is not strictly below it. -/
def insertByKey (w : Word) : List Word → List Word
  | [] => [w]
  | v :: vs => if wordKeyLt v w then v :: insertByKey w vs else w :: v :: vs

/-- Stable ascending sort by (top, x0), modelling the Python list.sort call
with key (top, x0). -/
def sortByKey : List Word → List Word
  | [] => []
  | w :: ws => insertByKey w (sortByKey ws)

/-- Word-selection window of extract_text_from_box: left x0 inside the box
horizontally, top inside the y-offset box vertically with tolerance. -/
def inBoxWindow (box : Box) (yoff tol : ℚ) (w : Word) : Bool :=
  decide (box.x ≤ w.x0) && decide (w.x0 ≤ box.x + box.width) &&
  decide (box.y + yoff - tol ≤ w.top) && decide (w.top ≤ box.y + yoff + box.height + tol)

/-- Embedding of STRExtractor.extract_text_from_box: filter the page words
through the window, sort by (top, x0), join with spaces, strip, collapse
whitespace runs, and strip trailing punctuation; empty string when no word
matches. -/
def extract_text_from_box (words : List Word) (box : Box) (yoff tol : ℚ) : Str :=
  let fieldWords := words.filter (inBoxWindow box yoff tol)
  if fieldWords.isEmpty then []
  else pyRstripPunct (collapseWs (pyStrip (joinSep ' ' ((sortByKey fieldWords).map Word.text))))

/-- Claim-side window, written from the words of the specification: left-x
lies in the closed interval from x to x+width, top-y lies in the closed
interval from y+y_offset-tolerance to y+y_offset+height+tolerance. -/
def claimWindow (box : Box) (yoff tol : ℚ) (w : Word) : Bool :=
  decide (box.x ≤ w.x0 ∧ w.x0 ≤ box.x + box.width) &&
  decide (box.y + yoff - tol ≤ w.top ∧ w.top ≤ box.y + yoff + box.height + tol)

/-- Claim-side extraction pipeline, written from the words of the
specification: select the words in the window, sort ascending by (top, x0),
join with single spaces, collapse internal whitespace runs to one space
(which also leaves no leading or trailing whitespace), and strip trailing
punctuation.  No separate empty-input branch: the pipeline yields the empty
string on an empty selection. -/
def extract_box_claim (words : List Word) (box : Box) (yoff tol : ℚ) : Str :=
  pyRstripPunct (collapseWs (joinSep ' ' ((sortByKey (words.filter (claimWindow box yoff tol))).map Word.text)))

theorem claimWindow_eq (box : Box) (yoff tol : ℚ) :
    claimWindow box yoff tol = inBoxWindow box yoff tol := by
  funext w
  simp [claimWindow, inBoxWindow, Bool.decide_and, Bool.and_assoc]

theorem splitWsAux_all_space (sp : Str) (h : ∀ c ∈ sp, isPySpace c = true) :
    splitWsAux sp [] = [] := by
  induction sp with
  | nil => rfl
  | cons c cs ih =>
    have hc : isPySpace c = true := h c (List.mem_cons_self c cs)
    simp only [splitWsAux, hc, if_true, List.isEmpty_nil]
    simpa using ih (fun d hd => h d (List.mem_cons_of_mem c hd))

theorem splitWsAux_space_only (sp : Str) (hsp : ∀ c ∈ sp, isPySpace c = true) (acc : Str) :
    splitWsAux sp acc = splitWsAux [] acc := by
  cases sp with
  | nil => rfl
  | cons c cs =>
    have hc : isPySpace c = true := hsp c (List.mem_cons_self c cs)
    have hcs : ∀ d ∈ cs, isPySpace d = true :=
      fun d hd => hsp d (List.mem_cons_of_mem c hd)
    cases acc with
    | nil =>
      simp only [splitWsAux, hc, if_true, List.isEmpty_nil]
      exact splitWsAux_all_space cs hcs
    | cons a as =>
      simp only [splitWsAux, hc, if_true, List.isEmpty_cons, if_false]
      rw [splitWsAux_all_space cs hcs]

theorem splitWsAux_append_space (sp : Str) (hsp : ∀ c ∈ sp, isPySpace c = true) :
    ∀ (l : Str) (acc : Str), splitWsAux (l ++ sp) acc = splitWsAux l acc := by
  intro l
  induction l with
  | nil =>
    intro acc
    simpa using splitWsAux_space_only sp hsp acc
  | cons c cs ih =>
    intro acc
    by_cases hc : isPySpace c
    · by_cases hacc : acc.isEmpty
      · simp [splitWsAux, hc, hacc, ih]
      · simp [splitWsAux, hc, hacc, ih]
    · simp [splitWsAux, hc, ih]

theorem splitWsAux_dropWhile (l : Str) :
    splitWsAux (l.dropWhile isPySpace) [] = splitWsAux l [] := by
  induction l with
  | nil => rfl
  | cons c cs ih =>
    by_cases hc : isPySpace c
    · simp only [List.dropWhile_cons, hc, if_true, splitWsAux, List.isEmpty_nil]
      exact ih
    · simp [List.dropWhile_cons, hc]

theorem pySplitWs_pyStrip (s : Str) : pySplitWs (pyStrip s) = pySplitWs s := by
  unfold pySplitWs pyStrip lstripBy
  rw [splitWsAux_dropWhile]
  show splitWsAux (rstripBy isPySpace s) [] = splitWsAux s []
  have hdecomp : s = rstripBy isPySpace s ++ (s.reverse.takeWhile isPySpace).reverse := by
    unfold rstripBy
    have h1 : s.reverse.takeWhile isPySpace ++ s.reverse.dropWhile isPySpace = s.reverse :=
      List.takeWhile_append_dropWhile isPySpace s.reverse
    calc s = s.reverse.reverse := (List.reverse_reverse s).symm
    _ = (s.reverse.takeWhile isPySpace ++ s.reverse.dropWhile isPySpace).reverse := by rw [h1]
    _ = (s.reverse.dropWhile isPySpace).reverse ++ (s.reverse.takeWhile isPySpace).reverse := by
        rw [List.reverse_append]
  have hsp : ∀ c ∈ (s.reverse.takeWhile isPySpace).reverse, isPySpace c = true := by
    intro c hc
    rw [List.mem_reverse] at hc
    exact List.mem_takeWhile_imp hc
  conv_rhs => rw [hdecomp]
  rw [splitWsAux_append_space _ hsp]

theorem collapseWs_pyStrip (s : Str) : collapseWs (pyStrip s) = collapseWs s := by
  unfold collapseWs
  rw [pySplitWs_pyStrip]

/-- Central refinement: the extractor pipeline coincides with the pipeline
read off the specification, for every input. -/
theorem extract_box_refines (words : List Word) (box : Box) (yoff tol : ℚ) :
    extract_text_from_box words box yoff tol = extract_box_claim words box yoff tol := by
  unfold extract_text_from_box extract_box_claim
  rw [claimWindow_eq]
  cases hfil : words.filter (inBoxWindow box yoff tol) with
  | nil => simp [hfil, sortByKey, joinSep, collapseWs, pySplitWs, splitWsAux, pyRstripPunct, rstripBy]
  | cons w ws =>
    simp only [hfil, List.isEmpty_cons, Bool.false_eq_true, if_false]
    rw [collapseWs_pyStrip]

theorem filter_window_eq_nil (words : List Word) (box : Box) (yoff tol : ℚ)
    (h : ∀ w ∈ words, inBoxWindow box yoff tol w = false) :
    words.filter (inBoxWindow box yoff tol) = [] := by
  rw [List.filter_eq_nil_iff]
  intro a ha
  simp [h a ha]

/-- Claim C1: for every page word list, box, y_offset and tolerance,
extract_text_from_box returns exactly the words whose left-x lies in
[x, x+width] and whose top-y lies in [y+y_offset-tolerance,
y+y_offset+height+tolerance], sorted ascending by (top, x0), joined with
single spaces, internal whitespace runs collapsed, leading and trailing
whitespace stripped, and trailing characters from the colon, semicolon,
comma and period set stripped; and it returns the empty string when no
word satisfies the window. -/
theorem claim_C1_extract_text_from_box :
    (∀ (words : List Word) (box : Box) (yoff tol : ℚ),
        extract_text_from_box words box yoff tol = extract_box_claim words box yoff tol) ∧
    (∀ (words : List Word) (box : Box) (yoff tol : ℚ),
        (∀ w ∈ words, inBoxWindow box yoff tol w = false) →
        extract_text_from_box words box yoff tol = []) := by
  refine ⟨extract_box_refines, ?_⟩
  intro words box yoff tol h
  unfold extract_text_from_box
  rw [filter_window_eq_nil words box yoff tol h]
  rfl

/-- Concrete word outside the test box, used by the claim C1 witness. -/
def wOutside : Word := ⟨("X").toList, 100, 110, 100, 110⟩

/-- Small test box. -/
def boxSmall : Box := ⟨0, 0, 10, 10⟩

theorem claim_C1_witness :
    extract_text_from_box [wOutside] boxSmall 0 5 = extract_box_claim [wOutside] boxSmall 0 5 ∧
    extract_text_from_box [wOutside] boxSmall 0 5 = [] :=
  ⟨claim_C1_extract_text_from_box.1 [wOutside] boxSmall 0 5,
   claim_C1_extract_text_from_box.2 [wOutside] boxSmall 0 5
     (by norm_num [inBoxWindow, wOutside, boxSmall])⟩

/-- Box used by the claim C4 counterexample. -/
def boxC4 : Box := ⟨10, 20, 5, 5⟩

/-- Word sitting exactly on the left edge of boxC4, with a trailing colon. -/
def wEdge : Word := ⟨('A' :: ':' :: []), 10, 12, 20, 25⟩

/-- Counterexample to claim C4 as stated: with zero offset and zero
tolerance the extractor returns the cleaned text of a word that lies on
the box boundary (hence not strictly inside), and the result is neither
the raw concatenation of the selected words nor the empty string that the
strict-inside reading would demand. -/
theorem claim_C4_counterexample :
    extract_text_from_box [wEdge] boxC4 0 0 = ('A' :: []) ∧
    wEdge.text = ('A' :: ':' :: []) ∧
    wEdge.x0 = boxC4.x ∧
    ('A' :: []) ≠ ('A' :: ':' :: []) ∧
    ('A' :: []) ≠ ([] : Str) := by
  refine ⟨?_, rfl, rfl, by decide, by decide⟩
  have hfil : [wEdge].filter (inBoxWindow boxC4 0 0) = [wEdge] := by
    norm_num [inBoxWindow, wEdge, boxC4]
  unfold extract_text_from_box
  rw [hfil]
  rfl

/-- Claim C4 as amended: with zero offset and zero tolerance the extractor
returns the cleaned join (top-then-left order, single spaces, whitespace
collapsed, trailing punctuation stripped) of precisely the words whose
left-x lies in the closed interval [x, x+width] and whose top-y lies in the
closed interval [y, y+height]; every word outside that closed window, by
even one pixel, is excluded from the selection. -/
theorem claim_C4_zero_tolerance :
    (∀ (words : List Word) (box : Box),
        extract_text_from_box words box 0 0 = extract_box_claim words box 0 0) ∧
    (∀ (words : List Word) (box : Box) (w : Word),
        (w.x0 < box.x ∨ box.x + box.width < w.x0 ∨
         w.top < box.y ∨ box.y + box.height < w.top) →
        w ∉ words.filter (inBoxWindow box 0 0)) := by
  constructor
  · intro words box
    exact extract_box_refines words box 0 0
  · intro words box w hout hmem
    have hw : inBoxWindow box 0 0 w = true := List.of_mem_filter hmem
    unfold inBoxWindow at hw
    simp only [Bool.and_eq_true, decide_eq_true_eq] at hw
    obtain ⟨⟨⟨h1, h2⟩, h3⟩, h4⟩ := hw
    rcases hout with h | h | h | h
    · exact absurd h1 (not_le.mpr h)
    · exact absurd h2 (not_le.mpr h)
    · simp only [add_zero, sub_zero] at h3
      exact absurd h3 (not_le.mpr h)
    · simp only [add_zero] at h4
      exact absurd h4 (not_le.mpr h)

theorem claim_C4_witness :
    extract_text_from_box [wEdge] boxC4 0 0 = extract_box_claim [wEdge] boxC4 0 0 ∧
    wOutside ∉ [wEdge].filter (inBoxWindow boxC4 0 0) :=
  ⟨claim_C4_zero_tolerance.1 [wEdge] boxC4,
   claim_C4_zero_tolerance.2 [wEdge] boxC4 wOutside (by norm_num [wOutside, boxC4])⟩

/-- Keyword constants used by the section-offset detector. -/
def kwMAKLUMAT : Str := ("MAKLUMAT").toList

/-- Keyword PEMOHON (applicant). -/
def kwPEMOHON : Str := ("PEMOHON").toList

/-- Keyword PASANGAN (spouse). -/
def kwPASANGAN : Str := ("PASANGAN").toList

/-- Keyword ANAK (child). -/
def kwANAK : Str := ("ANAK").toList

/-- Keyword WARIS (next of kin). -/
def kwWARIS : Str := ("WARIS").toList

/-- Expected header keywords per header field name, with the MAKLUMAT
default for unknown names, as in the header_keywords dictionary. -/
def headerKeywords (name : String) : List Str :=
  if name = "maklumat_pemohon_header" then [kwMAKLUMAT, kwPEMOHON]
  else if name = "maklumat_pasangan_header" then [kwMAKLUMAT, kwPASANGAN]
  else if name = "maklumat_anak_header" then [kwMAKLUMAT, kwANAK]
  else if name = "maklumat_waris_header" then [kwMAKLUMAT, kwWARIS]
  else [kwMAKLUMAT]

/-- Python int() on a rational: truncation toward zero. -/
def pyInt (q : ℚ) : Int := if 0 ≤ q then ⌊q⌋ else ⌈q⌉

/-- Horizontal search window of the offset detector: left x0 within 20px of
the template box on either side. -/
def offsetXWindow (tb : Box) (w : Word) : Bool :=
  decide (tb.x - 20 ≤ w.x0) && decide (w.x0 ≤ tb.x + tb.width + 20)

/-- Vertical search window of the offset detector: top within the given
range of the template y. -/
def offsetYWindow (tb : Box) (range : ℚ) (w : Word) : Bool :=
  decide (|w.top - tb.y| ≤ range)

/-- Candidate predicate of the general (non-waris) branch: some keyword
occurs in the uppercased text and the word sits in both windows. -/
def generalCandidate (tb : Box) (range : ℚ) (kws : List Str) (w : Word) : Bool :=
  kws.any (fun kw => occursIn kw (upperStr w.text)) && offsetXWindow tb w && offsetYWindow tb range w

/-- MAKLUMAT collector of the waris branch: in both windows and the
uppercased text contains MAKLUMAT. -/
def warisMakCandidate (tb : Box) (w : Word) : Bool :=
  offsetXWindow tb w && offsetYWindow tb 200 w && occursIn kwMAKLUMAT (upperStr w.text)

/-- WARIS collector of the waris branch: in both windows, the uppercased
text does not contain MAKLUMAT (the elif) but contains WARIS. -/
def warisWarCandidate (tb : Box) (w : Word) : Bool :=
  offsetXWindow tb w && offsetYWindow tb 200 w &&
  !occursIn kwMAKLUMAT (upperStr w.text) && occursIn kwWARIS (upperStr w.text)

/-- Embedding of STRExtractor.detect_section_offset.  For the waris header
the detector collects MAKLUMAT and WARIS words in a 200px vertical window
and returns int(mak_top - template_y) for the first MAKLUMAT word that has
a WARIS word within 5px vertically (outer loop over MAKLUMAT words, inner
over WARIS words).  For every other header it returns
int(first_candidate_top - template_y) for the first keyword match in a
50px window.  Zero when the header field is absent from the template or no
match is found. -/
def detect_section_offset (fields : List (String × Box)) (words : List Word)
    (name : String) : Int :=
  match fields.lookup name with
  | none => 0
  | some tb =>
    if name = "maklumat_waris_header" then
      let makWords := words.filter (warisMakCandidate tb)
      let warWords := words.filter (warisWarCandidate tb)
      match makWords.find? (fun m => warWords.any (fun v => decide (|m.top - v.top| ≤ 5))) with
      | some m => pyInt (m.top - tb.y)
      | none => 0
    else
      match (words.filter (generalCandidate tb 50 (headerKeywords name))).head? with
      | some c => pyInt (c.top - tb.y)
      | none => 0

/-- Template box used by the C2 scenario: waris header template at y 480. -/
def boxWaris : Box := ⟨90, 480, 100, 20⟩

/-- One-field template carrying the waris header box. -/
def fieldsWaris : List (String × Box) := [("maklumat_waris_header", boxWaris)]

/-- MAKLUMAT word of the C2 scenario, at x0 100 and top 500. -/
def wMak : Word := ⟨("MAKLUMAT").toList, 100, 150, 500, 510⟩

/-- WARIS word of the C2 scenario, at x0 160 and top 503. -/
def wWar : Word := ⟨("WARIS").toList, 160, 190, 503, 513⟩

theorem scenarioC2_mak_filter :
    [wMak, wWar].filter (warisMakCandidate boxWaris) = wMak :: [] := by
  norm_num [List.filter_cons, warisMakCandidate, offsetXWindow, offsetYWindow, wMak, wWar, boxWaris]
  decide

theorem scenarioC2_war_filter :
    [wMak, wWar].filter (warisWarCandidate boxWaris) = wWar :: [] := by
  norm_num [List.filter_cons, warisWarCandidate, offsetXWindow, offsetYWindow, wMak, wWar, boxWaris]
  decide

theorem scenarioC2_any_close :
    ([wMak, wWar].filter (warisWarCandidate boxWaris)).any
      (fun v => decide (|wMak.top - v.top| ≤ 5)) = true := by
  rw [scenarioC2_war_filter]
  norm_num [wMak, wWar]

/-- Counterexample to claim C2 as stated: in the exact scenario of the claim
(MAKLUMAT at top 500, WARIS at top 503, template y 480, both inside the
windows, first qualifying pair) the detector returns 500 - 480 = 20, not
the claimed 503 - 480 = 23: the offset is taken from the MAKLUMAT member
of the pair, not from the WARIS member. -/
theorem claim_C2_counterexample :
    detect_section_offset fieldsWaris [wMak, wWar] "maklumat_waris_header" = 20 ∧
    (20 : Int) ≠ 23 := by
  refine ⟨?_, by decide⟩
  unfold detect_section_offset
  have hlk : (fieldsWaris.lookup ("maklumat_waris_header")) = some boxWaris := rfl
  rw [hlk]
  simp only [eq_self_iff_true, if_true]
  rw [scenarioC2_mak_filter]
  have hfind : List.find?
      (fun m => ([wMak, wWar].filter (warisWarCandidate boxWaris)).any
        (fun v => decide (|m.top - v.top| ≤ 5))) (wMak :: []) = some wMak := by
    rw [List.find?_cons]
    simp only [scenarioC2_any_close, if_true]
  rw [hfind]
  norm_num [pyInt, wMak, boxWaris]

/-- Claim C2 as amended. -/
theorem claim_C2_first_pair (fields : List (String × Box)) (words : List Word)
    (tb : Box) (m : Word) (ms : List Word)
    (hlk : fields.lookup ("maklumat_waris_header") = some tb)
    (hmak : words.filter (warisMakCandidate tb) = m :: ms)
    (hany : (words.filter (warisWarCandidate tb)).any
        (fun v => decide (|m.top - v.top| ≤ 5)) = true) :
    detect_section_offset fields words ("maklumat_waris_header") = pyInt (m.top - tb.y) := by
  unfold detect_section_offset
  rw [hlk]
  simp only [eq_self_iff_true, if_true]
  rw [hmak]
  have hfind : List.find?
      (fun x => (words.filter (warisWarCandidate tb)).any
        (fun v => decide (|x.top - v.top| ≤ 5))) (m :: ms) = some m := by
    rw [List.find?_cons]
    simp only [hany, if_true]
  rw [hfind]

theorem claim_C2_witness :
    detect_section_offset fieldsWaris [wMak, wWar] "maklumat_waris_header" =
      pyInt (wMak.top - boxWaris.y) ∧
    pyInt (wMak.top - boxWaris.y) = 20 :=
  ⟨claim_C2_first_pair fieldsWaris [wMak, wWar] boxWaris wMak []
      rfl scenarioC2_mak_filter scenarioC2_any_close,
   by norm_num [pyInt, wMak, boxWaris]⟩

/-- Rounding to the nearest integer, the reading of the round function in
the claim text. -/
def claimRound (q : ℚ) : Int := ⌊q + 1/2⌋

/-- Template box used by the C3 scenario: applicant header at y 480. -/
def boxPem : Box := ⟨80, 480, 100, 20⟩

/-- One-field template carrying the applicant header box. -/
def fieldsPem : List (String × Box) := [("maklumat_pemohon_header", boxPem)]

/-- MAKLUMAT word with fractional top 482.7, inside both windows. -/
def wMakFrac : Word := ⟨("MAKLUMAT").toList, 100, 150, 4827/10, 490⟩

theorem scenarioC3_frac_filter :
    [wMakFrac].filter (generalCandidate boxPem 50 (headerKeywords ("maklumat_pemohon_header"))) =
      wMakFrac :: [] := by
  norm_num [List.filter_cons, generalCandidate, offsetXWindow, offsetYWindow,
    headerKeywords, List.any_cons, List.any_nil, wMakFrac, boxPem, abs_le]
  decide

/-- Counterexample to claim C3 as stated: with a candidate at top 482.7 and
template y 480 the detector returns int(2.7) = 2 (Python truncation toward
zero), while the round of the claim text gives 3. -/
theorem claim_C3_counterexample :
    detect_section_offset fieldsPem [wMakFrac] "maklumat_pemohon_header" = 2 ∧
    claimRound (wMakFrac.top - boxPem.y) = 3 ∧
    (2 : Int) ≠ 3 := by
  refine ⟨?_, ?_, by decide⟩
  · unfold detect_section_offset
    have hlk : fieldsPem.lookup ("maklumat_pemohon_header") = some boxPem := rfl
    rw [hlk]
    simp only [if_neg (by decide : ¬("maklumat_pemohon_header" = "maklumat_waris_header"))]
    rw [scenarioC3_frac_filter, List.head?_cons]
    norm_num [pyInt, wMakFrac, boxPem]
  · norm_num [claimRound, wMakFrac, boxPem]

/-- Claim C3 as amended: the detector returns the Python int() truncation
of candidate_y - template_y (not the rounding of the claim text) for the
first candidate in scan order, and returns 0, for every section, whenever
no word satisfies the x or y search windows. -/
theorem claim_C3_int_truncation :
    (∀ (fields : List (String × Box)) (words : List Word) (name : String)
        (tb : Box) (c : Word) (cs : List Word),
        name ≠ "maklumat_waris_header" →
        fields.lookup name = some tb →
        words.filter (generalCandidate tb 50 (headerKeywords name)) = c :: cs →
        detect_section_offset fields words name = pyInt (c.top - tb.y)) ∧
    (∀ (fields : List (String × Box)) (words : List Word) (name : String) (tb : Box),
        fields.lookup name = some tb →
        (∀ w ∈ words, offsetXWindow tb w = false ∨
          offsetYWindow tb (if name = "maklumat_waris_header" then 200 else 50) w = false) →
        detect_section_offset fields words name = 0) := by
  constructor
  · intro fields words name tb c cs hne hlk hfil
    unfold detect_section_offset
    rw [hlk]
    simp only [if_neg hne]
    rw [hfil, List.head?_cons]
  · intro fields words name tb hlk hwin
    unfold detect_section_offset
    rw [hlk]
    by_cases hn : name = "maklumat_waris_header"
    · simp only [if_pos hn]
      have hmaknil : words.filter (warisMakCandidate tb) = [] := by
        rw [List.filter_eq_nil_iff]
        intro w hw
        have h := hwin w hw
        rw [if_pos hn] at h
        rcases h with h | h
        · simp [warisMakCandidate, h]
        · simp [warisMakCandidate, h]
      rw [hmaknil, List.find?_nil]
    · simp only [if_neg hn]
      have hnil : words.filter (generalCandidate tb 50 (headerKeywords name)) = [] := by
        rw [List.filter_eq_nil_iff]
        intro w hw
        have h := hwin w hw
        rw [if_neg hn] at h
        rcases h with h | h
        · simp [generalCandidate, h]
        · simp [generalCandidate, h]
      rw [hnil, List.head?_nil]

/-- MAKLUMAT word at integer top 485, inside both windows of boxPem. -/
def wMakInt : Word := ⟨("MAKLUMAT").toList, 100, 150, 485, 495⟩

/-- Word far outside both search windows of boxPem. -/
def wFar : Word := ⟨("MAKLUMAT").toList, 300, 350, 100, 110⟩

theorem scenarioC3_int_filter :
    [wMakInt].filter (generalCandidate boxPem 50 (headerKeywords ("maklumat_pemohon_header"))) =
      wMakInt :: [] := by
  norm_num [List.filter_cons, generalCandidate, offsetXWindow, offsetYWindow,
    headerKeywords, List.any_cons, List.any_nil, wMakInt, boxPem]
  decide

theorem claim_C3_witness :
    detect_section_offset fieldsPem [wMakInt] "maklumat_pemohon_header" =
      pyInt (wMakInt.top - boxPem.y) ∧
    detect_section_offset fieldsPem [wFar] "maklumat_pemohon_header" = 0 :=
  ⟨claim_C3_int_truncation.1 fieldsPem [wMakInt] "maklumat_pemohon_header" boxPem wMakInt []
      (by decide) rfl scenarioC3_int_filter,
   claim_C3_int_truncation.2 fieldsPem [wFar] "maklumat_pemohon_header" boxPem rfl
      (by
        intro w hw
        rw [List.mem_singleton] at hw
        subst hw
        left
        norm_num [offsetXWindow, wFar, boxPem])⟩

/-- Keyword KAHWIN (married), the discriminator of stage 1. -/
def kwKAHWIN : Str := ("KAHWIN").toList

/-- Template file name of the with-spouse variant. -/
def withPasangan : String := "template_with_pasangan.json"

/-- Template file name of the without-spouse variant. -/
def withoutPasangan : String := "template_without_pasangan.json"

/-- Embedding of stage 1 of STRExtractor.extract_from_pdf: extract the
status_perkahwinan box with the default call (zero offset, tolerance 5),
uppercase it (empty when the field is absent from the bootstrap template),
and select the template variant by the KAHWIN substring test.  The
selection is a function of the bootstrap fields and the page words only:
it is computed once, before any section-offset detection. -/
def select_template (fields : List (String × Box)) (words : List Word) : String :=
  let status :=
    match fields.lookup ("status_perkahwinan") with
    | some box => upperStr (extract_text_from_box words box 0 5)
    | none => []
  if occursIn kwKAHWIN status then withPasangan else withoutPasangan

/-- Claim C5: if the uppercased text extracted from the status_perkahwinan
bootstrap box contains the substring KAHWIN the with-spouse variant is
selected, otherwise the without-spouse variant; and when the field is
absent from the bootstrap template the without-spouse variant is selected.
The decision is a pure function of the bootstrap template and the page
words, computed before any offset detection. -/
theorem claim_C5_select_template :
    (∀ (fields : List (String × Box)) (words : List Word) (box : Box),
        fields.lookup ("status_perkahwinan") = some box →
        (occursIn kwKAHWIN (upperStr (extract_text_from_box words box 0 5)) = true →
          select_template fields words = withPasangan) ∧
        (occursIn kwKAHWIN (upperStr (extract_text_from_box words box 0 5)) = false →
          select_template fields words = withoutPasangan)) ∧
    (∀ (fields : List (String × Box)) (words : List Word),
        fields.lookup ("status_perkahwinan") = none →
        select_template fields words = withoutPasangan) := by
  constructor
  · intro fields words box hlk
    constructor
    · intro hocc
      unfold select_template
      rw [hlk]
      simp only [hocc, if_true]
    · intro hocc
      unfold select_template
      rw [hlk]
      simp only [hocc, Bool.false_eq_true, if_false]
  · intro fields words hlk
    unfold select_template
    rw [hlk]
    simp only [occursIn, kwKAHWIN]
    rfl

/-- Bootstrap box for the marital-status field. -/
def boxStatus : Box := ⟨200, 300, 120, 15⟩

/-- Bootstrap template with only the status field. -/
def fieldsStatus : List (String × Box) := [("status_perkahwinan", boxStatus)]

/-- Word BERKAHWIN inside the status box. -/
def wBerkahwin : Word := ⟨("BERKAHWIN").toList, 210, 280, 302, 314⟩

/-- Word BUJANG inside the status box. -/
def wBujang : Word := ⟨("BUJANG").toList, 210, 260, 302, 314⟩

theorem scenarioC5_berkahwin :
    occursIn kwKAHWIN (upperStr (extract_text_from_box [wBerkahwin] boxStatus 0 5)) = true := by
  have hfil : [wBerkahwin].filter (inBoxWindow boxStatus 0 5) = [wBerkahwin] := by
    norm_num [List.filter_cons, inBoxWindow, wBerkahwin, boxStatus]
  unfold extract_text_from_box
  rw [hfil]
  decide

theorem scenarioC5_bujang :
    occursIn kwKAHWIN (upperStr (extract_text_from_box [wBujang] boxStatus 0 5)) = false := by
  have hfil : [wBujang].filter (inBoxWindow boxStatus 0 5) = [wBujang] := by
    norm_num [List.filter_cons, inBoxWindow, wBujang, boxStatus]
  unfold extract_text_from_box
  rw [hfil]
  decide

theorem claim_C5_witness :
    select_template fieldsStatus [wBerkahwin] = withPasangan ∧
    select_template fieldsStatus [wBujang] = withoutPasangan ∧
    select_template [] [wBerkahwin] = withoutPasangan :=
  ⟨(claim_C5_select_template.1 fieldsStatus [wBerkahwin] boxStatus rfl).1 scenarioC5_berkahwin,
   (claim_C5_select_template.1 fieldsStatus [wBujang] boxStatus rfl).2 scenarioC5_bujang,
   claim_C5_select_template.2 [] [wBerkahwin] rfl⟩

/-- A table cell as returned by the PDF library: a string or null. -/
abbrev Cell := Option Str

/-- A table row. -/
abbrev TableRow := List Cell

/-- A detected table: a list of rows, the first being the header. -/
abbrev Table := List TableRow

/-- One extracted child record; a field is none while never assigned. -/
structure Child where
  nama : Option Str
  no_mykad : Option Str
  umur : Option Str
  status : Option Str
deriving DecidableEq

/-- The record with no assigned field, the initial empty dict. -/
def emptyChild : Child := ⟨none, none, none, none⟩

/-- Python str(cell or ...): null and the empty string both give the empty
string, any other cell gives its text. -/
def cellOrEmpty (c : Cell) : Str :=
  match c with
  | some s => s
  | none => []

/-- Uppercase header text: the space-join of the uppercased header cells. -/
def headerTextOf (header : TableRow) : Str :=
  joinSep ' ' (header.map (fun c => upperStr (cellOrEmpty c)))

/-- Header keywords of the anak table test. -/
def kwNAMA : Str := ("NAMA").toList

/-- Header keyword MYKAD. -/
def kwMYKAD : Str := ("MYKAD").toList

/-- Header keyword MYKID (accepted only in the per-cell mapping). -/
def kwMYKID : Str := ("MYKID").toList

/-- Header keyword UMUR. -/
def kwUMUR : Str := ("UMUR").toList

/-- The acceptance test of the code: NAMA, MYKAD and UMUR must all occur in
the concatenated uppercased header text. -/
def anakHeaderMatch (header : TableRow) : Bool :=
  let ht := headerTextOf header
  occursIn kwNAMA ht && occursIn kwMYKAD ht && occursIn kwUMUR ht

/-- The acceptance test as the claim words it: MYKID is accepted in place
of MYKAD. -/
def claim_anak_markers (header : TableRow) : Bool :=
  let ht := headerTextOf header
  occursIn kwNAMA ht && (occursIn kwMYKAD ht || occursIn kwMYKID ht) && occursIn kwUMUR ht

/-- Python str(cell).strip() if cell else the empty string: null and the
empty string give the empty string, otherwise the stripped text. -/
def cellValue (c : Cell) : Str :=
  match c with
  | some s => if s.isEmpty then [] else pyStrip s
  | none => []

/-- A row is blank when it is empty or every cell is null or whitespace. -/
def rowBlankB (r : TableRow) : Bool :=
  r.isEmpty || r.all (fun c =>
    match c with
    | none => true
    | some s => (pyStrip s).isEmpty)

/-- Lowercase column keywords of the per-cell mapping. -/
def lcNama : Str := ("nama").toList

/-- Column keyword mykad. -/
def lcMykad : Str := ("mykad").toList

/-- Column keyword mykid. -/
def lcMykid : Str := ("mykid").toList

/-- Column keyword umur. -/
def lcUmur : Str := ("umur").toList

/-- Column keyword status. -/
def lcStatus : Str := ("status").toList

/-- Column keyword hubungan. -/
def lcHubungan : Str := ("hubungan").toList

/-- Assignment of one cell value into the record, keyed by substring match
on the stripped lowercased column header, in the if/elif order of the
code. -/
def assignField (c : Child) (fn : Str) (v : Str) : Child :=
  if occursIn lcNama fn then ⟨some v, c.no_mykad, c.umur, c.status⟩
  else if occursIn lcMykad fn || occursIn lcMykid fn then ⟨c.nama, some v, c.umur, c.status⟩
  else if occursIn lcUmur fn then ⟨c.nama, c.no_mykad, some v, c.status⟩
  else if occursIn lcStatus fn || occursIn lcHubungan fn then ⟨c.nama, c.no_mykad, c.umur, some v⟩
  else c

/-- The enumerate loop over one data row: each cell is mapped through its
column header when the index is in range and the header cell is truthy. -/
def mkChildAux (header : TableRow) : List Cell → Nat → Child → Child
  | [], _, c => c
  | cell :: rest, i, c =>
    let cv := cellValue cell
    let c2 :=
      match header.get? i with
      | some (some h) => if h.isEmpty then c else assignField c (lowerStr (pyStrip h)) cv
      | some none => c
      | none => c
    mkChildAux header rest (i + 1) c2

/-- Record built from one data row. -/
def mkChild (header : TableRow) (row : TableRow) : Child :=
  mkChildAux header row 0 emptyChild

/-- A record is non-empty when some field was assigned (the truthiness of
the Python dict). -/
def childNonEmptyB (c : Child) : Bool :=
  c.nama.isSome || c.no_mykad.isSome || c.umur.isSome || c.status.isSome

/-- The data-row loop of the accepted table: skip blank rows, build the
record, keep it only when non-empty. -/
def processRows (header : TableRow) : List TableRow → List Child
  | [] => []
  | r :: rest =>
    if rowBlankB r then processRows header rest
    else
      let ch := mkChild header r
      if childNonEmptyB ch then ch :: processRows header rest else processRows header rest

/-- Embedding of STRExtractor.extract_anak_table: scan the detected tables
in order, skip tables with fewer than two rows, accept the first whose
header passes the NAMA/MYKAD/UMUR test, and process its data rows; the
empty list when no table qualifies. -/
def extract_anak_table : List Table → List Child
  | [] => []
  | t :: ts =>
    if t.length < 2 then extract_anak_table ts
    else
      match t with
      | [] => extract_anak_table ts
      | header :: rows =>
        if anakHeaderMatch header then processRows header rows else extract_anak_table ts

theorem extract_anak_table_cons (t : Table) (ts : List Table) :
    extract_anak_table (t :: ts) =
      if t.length < 2 then extract_anak_table ts
      else
        match t with
        | [] => extract_anak_table ts
        | header :: rows =>
          if anakHeaderMatch header then processRows header rows
          else extract_anak_table ts := rfl

theorem processRows_eq_filter_map (header : TableRow) (rows : List TableRow) :
    processRows header rows =
      ((rows.filter (fun r => !rowBlankB r)).map (mkChild header)).filter childNonEmptyB := by
  induction rows with
  | nil => rfl
  | cons r rest ih =>
    by_cases hb : rowBlankB r
    · simp [processRows, List.filter_cons, hb, ih]
    · by_cases hne : childNonEmptyB (mkChild header r)
      · simp [processRows, List.filter_cons, hb, hne, ih]
      · simp [processRows, List.filter_cons, hb, hne, ih]

/-- Header of the MyKid-only table of the C6 counterexample. -/
def mykidHeader : TableRow :=
  [some (("Nama").toList), some (("No. MyKid").toList), some (("Umur").toList)]

/-- Data row of the MyKid-only table. -/
def mykidRow : TableRow :=
  [some (("Ali").toList), some (("990101").toList), some (("12").toList)]

/-- Counterexample to claim C6 as stated: a table whose header carries NAMA,
MYKID and UMUR (so it passes the markers of the claim, MYKID standing in
for MYKAD) and has a non-blank data row is nevertheless rejected by the
code, which demands the literal MYKAD marker; the extraction returns the
empty list instead of one record. -/
theorem claim_C6_counterexample :
    claim_anak_markers mykidHeader = true ∧
    rowBlankB mykidRow = false ∧
    extract_anak_table [[mykidHeader, mykidRow]] = [] := by
  refine ⟨by decide, by decide, by decide⟩

/-- Claim C6 as amended: the first table with at least two rows whose
header contains NAMA, MYKAD and UMUR (MYKID does not qualify in the
acceptance test, though mykid still maps a column in the per-cell step) is
processed: blank rows are skipped, each remaining row is mapped through
the column headers, and only non-empty records are kept; a table that
fails the acceptance test is skipped, and the empty list is returned when
no table qualifies. -/
theorem claim_C6_table_extraction :
    (∀ (header : TableRow) (rows : List TableRow) (ts : List Table),
        rows ≠ [] → anakHeaderMatch header = true →
        extract_anak_table ((header :: rows) :: ts) =
          ((rows.filter (fun r => !rowBlankB r)).map (mkChild header)).filter childNonEmptyB) ∧
    (∀ (header : TableRow) (rows : List TableRow) (ts : List Table),
        anakHeaderMatch header = false →
        extract_anak_table ((header :: rows) :: ts) = extract_anak_table ts) ∧
    extract_anak_table [] = [] := by
  refine ⟨?_, ?_, rfl⟩
  · intro header rows ts hrows hmatch
    have hlen : ¬((header :: rows).length < 2) := by
      cases rows with
      | nil => exact absurd rfl hrows
      | cons a as =>
        simp only [List.length_cons]
        omega
    rw [extract_anak_table_cons, if_neg hlen]
    simp only [hmatch, if_true]
    exact processRows_eq_filter_map header rows
  · intro header rows ts hmatch
    rw [extract_anak_table_cons]
    by_cases hlen : (header :: rows).length < 2
    · rw [if_pos hlen]
    · rw [if_neg hlen]
      simp only [hmatch, Bool.false_eq_true, if_false]

/-- Header of the specification example table. -/
def anakExHeader : TableRow :=
  [some (("Nama").toList), some (("No. MyKad/MyKid").toList),
   some (("Umur").toList), some (("Hubungan").toList)]

/-- Data row of the specification example table. -/
def anakExRow : TableRow :=
  [some (("Ali").toList), some (("990101-01-1234").toList),
   some (("12").toList), some (("Anak").toList)]

/-- All-blank data row of the specification example table. -/
def anakExBlank : TableRow :=
  [some (("").toList), none, some ((" ").toList), some (("").toList)]

/-- Record expected from the specification example. -/
def anakAliChild : Child :=
  ⟨some (("Ali").toList), some (("990101-01-1234").toList),
   some (("12").toList), some (("Anak").toList)⟩

theorem claim_C6_witness :
    anakHeaderMatch anakExHeader = true ∧
    extract_anak_table [[anakExHeader, anakExRow, anakExBlank]] = [anakAliChild] := by
  refine ⟨by decide, ?_⟩
  have h := claim_C6_table_extraction.1 anakExHeader [anakExRow, anakExBlank] []
    (by decide) (by decide)
  rw [h]
  decide

/-- Claim C10: a detected table with fewer than two rows is skipped and
scanning continues with the later tables, so a header-only table is never
selected even when its header matches the markers. -/
theorem claim_C10_short_table_skipped :
    ∀ (t : Table) (ts : List Table), t.length < 2 →
      extract_anak_table (t :: ts) = extract_anak_table ts := by
  intro t ts h
  rw [extract_anak_table_cons, if_pos h]

theorem claim_C10_witness :
    extract_anak_table [[anakExHeader]] = extract_anak_table [] :=
  claim_C10_short_table_skipped [anakExHeader] [] (by decide)

/-- The literal colon token skipped by the proximity extractors. -/
def colonStr : Str := [':']

/-- First word of the region whose uppercased text contains the uppercased
label, the label scan of the per-field loops. -/
def findLabelWord (region : List Word) (label : Str) : Option Word :=
  region.find? (fun w => occursIn (upperStr label) (upperStr w.text))

/-- Value gathering of the waris per-field loop: words on the same line
(strictly within 10px) and strictly right of the label, keeping the raw
text, skipping tokens whose stripped text is a colon. -/
def warisGather (ly lx1 : ℚ) : List Word → List Str
  | [] => []
  | o :: rest =>
    if decide (|o.top - ly| < 10) && decide (o.x0 > lx1) then
      if pyStrip o.text = colonStr then warisGather ly lx1 rest
      else o.text :: warisGather ly lx1 rest
    else warisGather ly lx1 rest

/-- Per-field value of extract_waris_section: anchor at the first word
containing the label, join the gathered tokens with spaces and strip;
empty when the label is absent or nothing is gathered. -/
def waris_field_value (region : List Word) (label : Str) : Str :=
  match findLabelWord region label with
  | none => []
  | some w =>
    let parts := warisGather w.top w.x1 region
    if parts.isEmpty then [] else pyStrip (joinSep ' ' parts)

/-- Value gathering of the pasangan per-field loop: as for waris, but the
token is stripped before use and tokens whose uppercased text occurs
inside the uppercased label are also skipped. -/
def pasanganGather (label : Str) (ly lx1 : ℚ) : List Word → List Str
  | [] => []
  | o :: rest =>
    if decide (|o.top - ly| < 10) && decide (o.x0 > lx1) then
      if pyStrip o.text = colonStr then pasanganGather label ly lx1 rest
      else if occursIn (upperStr (pyStrip o.text)) (upperStr label) then
        pasanganGather label ly lx1 rest
      else pyStrip o.text :: pasanganGather label ly lx1 rest
    else pasanganGather label ly lx1 rest

/-- Per-field value of extract_pasangan_section. -/
def pasangan_field_value (region : List Word) (label : Str) : Str :=
  match findLabelWord region label with
  | none => []
  | some w =>
    let parts := pasanganGather label w.top w.x1 region
    if parts.isEmpty then [] else pyStrip (joinSep ' ' parts)

/-- Python truthiness of the header variable: None and 0 are falsy. -/
def pyTruthy : Option ℚ → Bool
  | none => false
  | some v => !(decide (v = 0))

/-- Inner scan of the header loops: the first word within 5px vertically
whose uppercased text contains MAKLUMAT. -/
def findNearMaklumat (all : List Word) (w : Word) : Option Word :=
  all.find? (fun o => decide (|o.top - w.top| < 5) && occursIn kwMAKLUMAT (upperStr o.text))

/-- Header-location loop shared by extract_waris_section (kw WARIS) and
extract_pasangan_section (kw PASANGAN): a word containing both MAKLUMAT
and kw sets the header bottom at once; a word containing kw alone pairs
with a nearby MAKLUMAT word and sets the max of the two bottoms, but the
loop breaks only when the stored value is truthy (the Python
if-not-header quirk: a zero bottom is treated as unset). -/
def sectionHeaderLoop (kw : Str) (all : List Word) : List Word → Option ℚ → Option ℚ
  | [], cur => cur
  | w :: rest, cur =>
    if occursIn kwMAKLUMAT (upperStr w.text) && occursIn kw (upperStr w.text) then
      some w.bottom
    else if occursIn kw (upperStr w.text) then
      match findNearMaklumat all w with
      | some o =>
        if pyTruthy (some (max w.bottom o.bottom)) then some (max w.bottom o.bottom)
        else sectionHeaderLoop kw all rest (some (max w.bottom o.bottom))
      | none =>
        if pyTruthy cur then cur else sectionHeaderLoop kw all rest cur
    else sectionHeaderLoop kw all rest cur

/-- Header bottom-y found on the page, still subject to the truthiness
test. -/
def sectionHeaderY (kw : Str) (words : List Word) : Option ℚ :=
  sectionHeaderLoop kw words words none

/-- Field keys and label texts of the waris section, in dict order. -/
def warisFieldLabels : List (String × Str) :=
  [("hubungan", ("Hubungan").toList),
   ("no_pengenalan", ("No Pengenalan").toList),
   ("nama", ("Nama").toList),
   ("no_telefon", ("No Telefon").toList)]

/-- Embedding of STRExtractor.extract_waris_section.  The restriction of
the words to the section region models the within_bbox call of the PDF
library: per the spec the region runs from the header bottom to the page
bottom, keeping words lying fully inside. -/
def extract_waris_section (words : List Word) (pageW pageH : ℚ) : List (String × Str) :=
  match sectionHeaderY kwWARIS words with
  | none => []
  | some hy =>
    if hy = 0 then []
    else
      let region := words.filter (fun w =>
        decide (0 ≤ w.x0) && decide (w.x1 ≤ pageW) &&
        decide (hy ≤ w.top) && decide (w.bottom ≤ pageH))
      warisFieldLabels.map (fun kl => (kl.1, waris_field_value region kl.2))

/-- First later section header below the pasangan header: the first word
under it containing MAKLUMAT together with ANAK or WARIS; the page height
when there is none. -/
def nextSectionY (words : List Word) (hy pageH : ℚ) : ℚ :=
  match words.find? (fun w => decide (w.top > hy) &&
      (occursIn kwMAKLUMAT (upperStr w.text) &&
        (occursIn kwANAK (upperStr w.text) || occursIn kwWARIS (upperStr w.text)))) with
  | some w => w.top
  | none => pageH

/-- Field keys and label texts of the pasangan section, in dict order. -/
def pasanganFieldLabels : List (String × Str) :=
  [("nama", ("Nama").toList),
   ("jenis_pengenalan", ("Jenis Pengenalan").toList),
   ("no_mykad", ("MyKAD").toList),
   ("negara_asal", ("Negara Asal").toList),
   ("no_telefon", ("No. Telefon").toList),
   ("jantina", ("Jantina").toList),
   ("pekerjaan", ("Pekerjaan").toList),
   ("nama_bank", ("Nama Bank Pasangan").toList),
   ("no_akaun_bank", ("No Akaun Bank Pasangan").toList)]

/-- Embedding of STRExtractor.extract_pasangan_section; the region runs
from the header bottom to the next recognized section header (or the page
bottom). -/
def extract_pasangan_section (words : List Word) (pageW pageH : ℚ) : List (String × Str) :=
  match sectionHeaderY kwPASANGAN words with
  | none => []
  | some hy =>
    if hy = 0 then []
    else
      let nsy := nextSectionY words hy pageH
      let region := words.filter (fun w =>
        decide (0 ≤ w.x0) && decide (w.x1 ≤ pageW) &&
        decide (hy ≤ w.top) && decide (w.bottom ≤ nsy))
      pasanganFieldLabels.map (fun kl => (kl.1, pasangan_field_value region kl.2))

theorem warisGather_eq_filter (ly lx1 : ℚ) (ws : List Word) :
    warisGather ly lx1 ws =
      (ws.filter (fun o => decide (|o.top - ly| < 10) && decide (o.x0 > lx1) &&
        !(decide (pyStrip o.text = colonStr)))).map Word.text := by
  induction ws with
  | nil => rfl
  | cons o rest ih =>
    by_cases h1 : (decide (|o.top - ly| < 10) && decide (o.x0 > lx1)) = true
    · by_cases h2 : pyStrip o.text = colonStr
      · rw [Bool.and_eq_true] at h1
        simp [warisGather, h1.1, h1.2, h2, List.filter_cons, ih]
      · rw [Bool.and_eq_true] at h1
        simp [warisGather, h1.1, h1.2, h2, List.filter_cons, ih]
    · simp only [Bool.and_eq_true, decide_eq_true_eq, not_and_or] at h1
      simp only [warisGather, List.filter_cons]
      rcases h1 with h | h
      · simp [h, ih]
      · simp [h, ih]

theorem pasanganGather_eq_filter (label : Str) (ly lx1 : ℚ) (ws : List Word) :
    pasanganGather label ly lx1 ws =
      (ws.filter (fun o => decide (|o.top - ly| < 10) && decide (o.x0 > lx1) &&
        !(decide (pyStrip o.text = colonStr)) &&
        !occursIn (upperStr (pyStrip o.text)) (upperStr label))).map
          (fun o => pyStrip o.text) := by
  induction ws with
  | nil => rfl
  | cons o rest ih =>
    by_cases h1 : (decide (|o.top - ly| < 10) && decide (o.x0 > lx1)) = true
    · by_cases h2 : pyStrip o.text = colonStr
      · rw [Bool.and_eq_true] at h1
        simp [pasanganGather, h1.1, h1.2, h2, List.filter_cons, ih]
      · by_cases h3 : occursIn (upperStr (pyStrip o.text)) (upperStr label) = true
        · rw [Bool.and_eq_true] at h1
          simp [pasanganGather, h1.1, h1.2, h2, h3, List.filter_cons, ih]
        · rw [Bool.and_eq_true] at h1
          simp only [Bool.not_eq_true] at h3
          simp [pasanganGather, h1.1, h1.2, h2, h3, List.filter_cons, ih]
    · simp only [Bool.and_eq_true, decide_eq_true_eq, not_and_or] at h1
      simp only [pasanganGather, List.filter_cons]
      rcases h1 with h | h
      · simp [h, ih]
      · simp [h, ih]

/-- Counterexample region: the label word Nama and the single-letter word
a to its right on the same line. -/
def wNamaLbl : Word := ⟨("Nama").toList, 0, 20, 100, 110⟩

/-- The value word a of the C7 counterexample. -/
def wShortA : Word := ⟨("a").toList, 30, 35, 100, 110⟩

/-- The label text Nama. -/
def lblNama : Str := ("Nama").toList

/-- The per-field value as the claim words it, for both sections: all other
words on the same line and right of the label, excluding only literal
colon tokens, joined in natural order. -/
def claim_proximity_value (region : List Word) (label : Str) : Str :=
  match findLabelWord region label with
  | none => []
  | some w =>
    joinSep ' ' ((region.filter (fun o => decide (|o.top - w.top| < 10) &&
      decide (o.x0 > w.x1) && !(decide (pyStrip o.text = colonStr)))).map Word.text)

theorem scenarioC7_find :
    findLabelWord [wNamaLbl, wShortA] lblNama = some wNamaLbl := by decide

/-- Counterexample to claim C7 as stated: in the spouse section the word a
right of the label Nama is excluded because its uppercased text occurs
inside the uppercased label (the extra pasangan exclusion), so the code
returns the empty value while the claim rule (exclude only colons)
predicts the value a. -/
theorem claim_C7_counterexample :
    claim_proximity_value [wNamaLbl, wShortA] lblNama = ('a' :: []) ∧
    pasangan_field_value [wNamaLbl, wShortA] lblNama = [] ∧
    ('a' :: []) ≠ ([] : Str) := by
  refine ⟨?_, ?_, by decide⟩
  · unfold claim_proximity_value
    rw [scenarioC7_find]
    norm_num [List.filter_cons, wNamaLbl, wShortA]
    decide
  · unfold pasangan_field_value
    rw [scenarioC7_find]
    norm_num [pasanganGather, wNamaLbl, wShortA]
    decide

/-- Claim C7 as amended: when the label is never found the value is empty
for both sections; when it is found, the waris value is the stripped
space-join of the raw texts of the words strictly within 10px of the label
line and strictly right of the label end, excluding tokens whose stripped
text is a literal colon, and the pasangan value additionally strips every
token and excludes tokens whose uppercased stripped text occurs inside the
uppercased label; empty when nothing is gathered. -/
theorem claim_C7_label_value :
    (∀ (region : List Word) (label : Str),
        findLabelWord region label = none →
        waris_field_value region label = [] ∧ pasangan_field_value region label = []) ∧
    (∀ (region : List Word) (label : Str) (w : Word),
        findLabelWord region label = some w →
        waris_field_value region label =
          (if ((region.filter (fun o => decide (|o.top - w.top| < 10) &&
                decide (o.x0 > w.x1) && !(decide (pyStrip o.text = colonStr)))).map
                Word.text).isEmpty
           then []
           else pyStrip (joinSep ' '
             ((region.filter (fun o => decide (|o.top - w.top| < 10) &&
               decide (o.x0 > w.x1) && !(decide (pyStrip o.text = colonStr)))).map
               Word.text)))) ∧
    (∀ (region : List Word) (label : Str) (w : Word),
        findLabelWord region label = some w →
        pasangan_field_value region label =
          (if ((region.filter (fun o => decide (|o.top - w.top| < 10) &&
                decide (o.x0 > w.x1) && !(decide (pyStrip o.text = colonStr)) &&
                !occursIn (upperStr (pyStrip o.text)) (upperStr label))).map
                (fun o => pyStrip o.text)).isEmpty
           then []
           else pyStrip (joinSep ' '
             ((region.filter (fun o => decide (|o.top - w.top| < 10) &&
               decide (o.x0 > w.x1) && !(decide (pyStrip o.text = colonStr)) &&
               !occursIn (upperStr (pyStrip o.text)) (upperStr label))).map
               (fun o => pyStrip o.text))))) := by
  refine ⟨?_, ?_, ?_⟩
  · intro region label hnone
    constructor
    · unfold waris_field_value
      rw [hnone]
    · unfold pasangan_field_value
      rw [hnone]
  · intro region label w hfind
    simp only [waris_field_value, hfind]
    rw [warisGather_eq_filter]
  · intro region label w hfind
    simp only [pasangan_field_value, hfind]
    rw [pasanganGather_eq_filter]

theorem claim_C7_witness :
    waris_field_value [wNamaLbl, wShortA] lblNama = ('a' :: []) ∧
    waris_field_value [] lblNama = [] ∧
    pasangan_field_value [] lblNama = [] := by
  have hsome := claim_C7_label_value.2.1 [wNamaLbl, wShortA] lblNama wNamaLbl scenarioC7_find
  have hnone := claim_C7_label_value.1 [] lblNama rfl
  refine ⟨?_, hnone.1, hnone.2⟩
  rw [hsome]
  norm_num [List.filter_cons, wNamaLbl, wShortA]
  decide

/-- The natural reading of the header phrase being locatable: some word
contains both MAKLUMAT and the section keyword, or some word contains the
keyword with a MAKLUMAT word within 5px vertically. -/
def sectionHeaderLocated (kw : Str) (words : List Word) : Prop :=
  ∃ w ∈ words,
    (occursIn kwMAKLUMAT (upperStr w.text) = true ∧ occursIn kw (upperStr w.text) = true) ∨
    (occursIn kw (upperStr w.text) = true ∧
      ∃ o ∈ words, |o.top - w.top| < 5 ∧ occursIn kwMAKLUMAT (upperStr o.text) = true)

theorem sectionHeaderLoop_of_not_located (kw : Str) (words : List Word)
    (h : ¬ sectionHeaderLocated kw words) :
    ∀ (rest : List Word), (∀ w ∈ rest, w ∈ words) →
      ∀ cur, sectionHeaderLoop kw words rest cur = cur := by
  intro rest
  induction rest with
  | nil =>
    intro _ cur
    rfl
  | cons w ws ih =>
    intro hsub cur
    have hw : w ∈ words := hsub w (List.mem_cons_self w ws)
    have hsub2 : ∀ v ∈ ws, v ∈ words := fun v hv => hsub v (List.mem_cons_of_mem w hv)
    by_cases hkw : occursIn kw (upperStr w.text) = true
    · by_cases hmak : occursIn kwMAKLUMAT (upperStr w.text) = true
      · exact absurd ⟨w, hw, Or.inl ⟨hmak, hkw⟩⟩ h
      · have hfind : findNearMaklumat words w = none := by
          rw [findNearMaklumat, List.find?_eq_none]
          intro o ho hpred
          rw [Bool.and_eq_true, decide_eq_true_eq] at hpred
          exact h ⟨w, hw, Or.inr ⟨hkw, o, ho, hpred.1, hpred.2⟩⟩
        rw [Bool.not_eq_true] at hmak
        simp only [sectionHeaderLoop, hmak, hkw, Bool.false_and, Bool.false_eq_true,
          if_false, if_true, hfind]
        by_cases hcur : pyTruthy cur = true
        · simp [hcur]
        · rw [Bool.not_eq_true] at hcur
          simp [hcur, ih hsub2 cur]
    · rw [Bool.not_eq_true] at hkw
      simp only [sectionHeaderLoop, hkw, Bool.and_false, Bool.false_eq_true, if_false]
      exact ih hsub2 cur

/-- Claim C8: when the section header phrase cannot be located on the page,
both proximity extractors return the empty mapping. -/
theorem claim_C8_header_not_found :
    (∀ (words : List Word) (pw ph : ℚ),
        ¬ sectionHeaderLocated kwWARIS words →
        extract_waris_section words pw ph = []) ∧
    (∀ (words : List Word) (pw ph : ℚ),
        ¬ sectionHeaderLocated kwPASANGAN words →
        extract_pasangan_section words pw ph = []) := by
  have key : ∀ (kw : Str) (words : List Word), ¬ sectionHeaderLocated kw words →
      sectionHeaderY kw words = none := fun kw words h =>
    sectionHeaderLoop_of_not_located kw words h words (fun _ hw => hw) none
  constructor
  · intro words pw ph h
    unfold extract_waris_section
    rw [key kwWARIS words h]
  · intro words pw ph h
    unfold extract_pasangan_section
    rw [key kwPASANGAN words h]

theorem claim_C8_witness :
    extract_waris_section [] 600 800 = [] ∧
    extract_pasangan_section [] 600 800 = [] :=
  ⟨claim_C8_header_not_found.1 [] 600 800 (by simp [sectionHeaderLocated]),
   claim_C8_header_not_found.2 [] 600 800 (by simp [sectionHeaderLocated])⟩

/-- JSON values, the shape handled by the template store; numbers are
modelled as exact rationals. -/
inductive Json where
  | null : Json
  | bool : Bool → Json
  | num : ℚ → Json
  | str : String → Json
  | arr : List Json → Json
  | obj : List (String × Json) → Json

/-- Builder-side bounding box: the update_pdf_coords method stores the
integer page coordinates. -/
structure BBox where
  pdf_x : Int
  pdf_y : Int
  pdf_width : Int
  pdf_height : Int
deriving DecidableEq

/-- Embedding of BoundingBox.get_pdf_box: the x, y, width, height object
saved per field. -/
def get_pdf_box (b : BBox) : Json :=
  Json.obj [("x", Json.num (b.pdf_x : ℚ)), ("y", Json.num (b.pdf_y : ℚ)),
            ("width", Json.num (b.pdf_width : ℚ)), ("height", Json.num (b.pdf_height : ℚ))]

/-- Embedding of TemplateBuilder.save_template: the serialized template
object with pdf_dimensions and the per-field boxes (the JSON text encoding
itself is the external json module). -/
def save_template (pdfW pdfH : ℚ) (boxes : List (String × BBox)) : Json :=
  Json.obj
    [("pdf_dimensions", Json.obj [("width", Json.num pdfW), ("height", Json.num pdfH)]),
     ("fields", Json.obj (boxes.map (fun nb => (nb.1, get_pdf_box nb.2))))]

/-- Python dict.get with a default. -/
def jsonGetD (j : Json) (k : String) (d : Json) : Json :=
  match j with
  | Json.obj kvs =>
    match kvs.lookup k with
    | some v => v
    | none => d
  | _ => d

/-- Embedding of the template read of TemplateBuilder.load_initial_boxes:
the fields member of the parsed template, an empty object when absent. -/
def load_initial_boxes (tmpl : Json) : Json := jsonGetD tmpl ("fields") (Json.obj [])

theorem jsonGetD_obj (kvs : List (String × Json)) (k : String) (d : Json) :
    jsonGetD (Json.obj kvs) k d =
      (match kvs.lookup k with
       | some v => v
       | none => d) := rfl

theorem lookup_map_get_pdf_box (boxes : List (String × BBox)) (name : String) :
    (boxes.map (fun nb => (nb.1, get_pdf_box nb.2))).lookup name =
      (boxes.lookup name).map get_pdf_box := by
  induction boxes with
  | nil => rfl
  | cons b rest ih =>
    obtain ⟨k, v⟩ := b
    cases hb : (name == k) with
    | true => simp [List.lookup, hb]
    | false => simp [List.lookup, hb, ih]

/-- Claim C9: a template saved and reloaded reproduces identical field
geometry: the loaded fields object is exactly the saved per-field mapping,
and looking any field name up in it yields exactly the box written for
that name. -/
theorem claim_C9_template_roundtrip :
    (∀ (pdfW pdfH : ℚ) (boxes : List (String × BBox)),
        load_initial_boxes (save_template pdfW pdfH boxes) =
          Json.obj (boxes.map (fun nb => (nb.1, get_pdf_box nb.2)))) ∧
    (∀ (pdfW pdfH : ℚ) (boxes : List (String × BBox)) (name : String),
        jsonGetD (load_initial_boxes (save_template pdfW pdfH boxes)) name Json.null =
          (match boxes.lookup name with
           | some b => get_pdf_box b
           | none => Json.null)) := by
  have h1 : ∀ (pdfW pdfH : ℚ) (boxes : List (String × BBox)),
      load_initial_boxes (save_template pdfW pdfH boxes) =
        Json.obj (boxes.map (fun nb => (nb.1, get_pdf_box nb.2))) := by
    intro pdfW pdfH boxes
    rfl
  refine ⟨h1, ?_⟩
  intro pdfW pdfH boxes name
  rw [h1, jsonGetD_obj, lookup_map_get_pdf_box]
  cases boxes.lookup name with
  | none => rfl
  | some b => rfl

end STR
